import Mathlib

/-
Verification of the manadia API-key subsystem (service.py, repository.py,
models.py) against its design specification.

The embedding below follows the Python source closely:
  - models.APIKey becomes the structure APIKey; the integer column
    is_active keeps its 0/1 encoding; timestamps are naturals.
  - repository.APIKeyRepository methods become functions over an explicit
    Session value (the SQLAlchemy session plus the table contents);
    a storageUp flag models whether the persistence layer is reachable,
    and a db operation performed while it is down raises a storage error.
  - the bcrypt library is external to the repository, so it is modelled by
    its functional contract: hashpw packages the salt and the plaintext
    into an unforgeable artifact, checkpw succeeds exactly on the
    plaintext that was hashed, and raises on a malformed stored hash.
  - secrets.token_urlsafe is a random source, so the generated plaintext
    is passed in as an explicit argument (freshKey), as is the bcrypt salt
    and the current wall-clock time (now).
Python exceptions are modelled with Except; a try/except block becomes a
match on the Except value.

Note on repository.update_last_used: the class body of APIKeyRepository
defines update_last_used twice (lines 137 and 162).  Python binds the
last definition, so every call runs the second one, whose query filter
reads APIKey.key.  The APIKey model (models.py) has no column named key,
hence that attribute access raises AttributeError before the database is
touched.  The embedding therefore makes update_last_used fail
unconditionally, which is what the source does.
-/

deriving instance DecidableEq for Except

namespace Manadia

/-- A bcrypt hash artifact (the key_hash column).  bcrypt is an external
library, modelled by its contract: a well-formed artifact remembers the
salt and the hashed plaintext; checkpw on a malformed artifact raises. -/
inductive BcryptHash where
  | valid (salt : Nat) (key : String)
  | malformed (raw : String)
deriving DecidableEq, Repr

/-- Python exception values that the embedded code can raise. -/
inductive PyError where
  | valueError (msg : String)
  | attributeError (msg : String)
  | storageError (msg : String)
deriving DecidableEq, Repr

/-- bcrypt.hashpw(plaintext, gensalt(rounds)): produces the stored hash. -/
def hashpw (plaintext : String) (salt : Nat) : BcryptHash :=
  .valid salt plaintext

/-- bcrypt.checkpw(plaintext, stored): true exactly when the stored hash
was produced from this plaintext; raises on a malformed stored hash. -/
def checkpw (plaintext : String) (h : BcryptHash) : Except PyError Bool :=
  match h with
  | .valid _ key => .ok (decide (plaintext = key))
  | .malformed _ => .error (.valueError ("invalid salt"))

/-- The api_keys row (models.APIKey).  keyPfx embeds the key_prefix
column, the first 8 characters of the plaintext, stored in clear. -/
structure APIKey where
  id : Nat
  keyPfx : String
  key_hash : BcryptHash
  user_name : String
  description : Option String
  created_at : Nat
  expires_at : Option Nat
  last_used : Option Nat
  is_active : Nat
deriving DecidableEq, Repr

/-- The api_keys table plus the id sequence backing the primary key. -/
structure KeyStore where
  nextId : Nat
  keys : List APIKey
deriving DecidableEq, Repr

/-- A database session: table contents, reachability of the persistence
layer, and the Config.API_KEY_EXPIRATION_DAYS setting (0 = never). -/
structure Session where
  store : KeyStore
  storageUp : Bool
  expirationDays : Nat
deriving DecidableEq, Repr

/-- Python str.isalnum: false on the empty string, otherwise true when
every character is alphanumeric (the embedding restricts to ASCII, which
covers every owner name the claims are about). -/
def pyIsalnum (s : String) : Bool :=
  !s.isEmpty && s.toList.all Char.isAlphanum

/-- Python s.replace(c, empty) for a single character c removes every
occurrence of c, embedded as a character filter. -/
def removeChar (c : Char) (s : String) : String :=
  String.mk (s.toList.filter (fun a => decide (a ≠ c)))

/-- The row assembled by APIKeyRepository.create before insertion: the
id comes from the sequence, is_active defaults to 1, created_at to
utcnow, last_used to NULL. -/
def newRecord (s : Session) (key_hash : BcryptHash) (keyPfx : String)
    (user_name : String) (description : Option String)
    (expires_at : Option Nat) (now : Nat) : APIKey :=
  { id := s.store.nextId, keyPfx := keyPfx, key_hash := key_hash,
    user_name := user_name, description := description,
    created_at := now, expires_at := expires_at, last_used := none,
    is_active := 1 }

/-- repository.APIKeyRepository.create: inserts a fresh row, commits,
and returns the refreshed record.  Raises a storage error if the
database is unreachable. -/
def APIKeyRepository.create (s : Session) (key_hash : BcryptHash)
    (keyPfx : String) (user_name : String) (description : Option String)
    (expires_at : Option Nat) (now : Nat) : Except PyError (APIKey × Session) :=
  if !s.storageUp then .error (.storageError ("database unavailable"))
  else
    .ok (newRecord s key_hash keyPfx user_name description expires_at now,
      { s with store := { nextId := s.store.nextId + 1,
                          keys := s.store.keys ++ [newRecord s key_hash
                            keyPfx user_name description expires_at now] } })

/-- The for-loop of get_by_key_hash: checkpw each candidate against the
presented plaintext, returning the first match; an exception from a
malformed stored hash skips that record (the inner try/except). -/
def findMatch (plaintext : String) : List APIKey → Option APIKey
  | [] => none
  | k :: rest =>
    match checkpw plaintext k.key_hash with
    | .ok true => some k
    | _ => findMatch plaintext rest

/-- repository.APIKeyRepository.get_by_key_hash: returns None at once for
an empty or shorter-than-8 input, otherwise queries the table by the
8-character key_prefix with is_active = 1 and checks each candidate hash.
The Bool in the result records whether the indexed query was issued, so
that the no-query property of short inputs can be stated. -/
def APIKeyRepository.get_by_key_hash (s : Session) (plaintext_key : String) :
    Except PyError (Option APIKey × Bool) :=
  if plaintext_key = "" ∨ plaintext_key.length < 8 then .ok (none, false)
  else if !s.storageUp then .error (.storageError ("database unavailable"))
  else
    .ok (findMatch plaintext_key (s.store.keys.filter
      (fun k => decide (k.keyPfx = plaintext_key.take 8 ∧ k.is_active = 1))),
      true)

/-- repository.APIKeyRepository.update_last_used, effective version: the
second definition in the class body (line 162) shadows the first, and its
filter reads APIKey.key, a column that does not exist on the model, so
the call raises AttributeError before the database is touched. -/
def APIKeyRepository.update_last_used (_s : Session) (_key : Nat) (_now : Nat) :
    Except PyError Session :=
  .error (.attributeError ("type object APIKey has no attribute key"))

/-- The session produced by a successful repository revoke of id i: the
row with that id has is_active set to 0 and the change is committed. -/
def revokeById (s : Session) (i : Nat) : Session :=
  let newKeys := s.store.keys.map (fun k =>
    if k.id = i then { k with is_active := 0 } else k)
  { s with store := { s.store with keys := newKeys } }

/-- repository.APIKeyRepository.revoke: looks the row up by primary key;
if found, sets is_active = 0, commits and returns True, else False.
Raises a storage error if the database is unreachable.  (The second
return False in the source is unreachable dead code.) -/
def APIKeyRepository.revoke (s : Session) (key_id : Nat) :
    Except PyError (Bool × Session) :=
  if !s.storageUp then .error (.storageError ("database unavailable"))
  else if s.store.keys.any (fun k => decide (k.id = key_id)) then
    .ok (true, revokeById s key_id)
  else
    .ok (false, s)

/-- The dictionary returned by service.APIKeyService.generate_api_key
(the warning string carries no information and is omitted). -/
structure GenResult where
  api_key : String
  user : String
  created_at : Nat
  expires_at : Option Nat
deriving DecidableEq, Repr

/-- The expiry computed from the Config.API_KEY_EXPIRATION_DAYS
setting: 0 means never expires; otherwise utcnow plus that many days
(86400 seconds each). -/
def expiryFrom (s : Session) (now : Nat) : Option Nat :=
  if s.expirationDays > 0 then some (now + s.expirationDays * 86400)
  else none

/-- service.APIKeyService.generate_api_key: validates the owner name
(non-empty, 1-255 characters, alphanumeric plus hyphen and underscore
after the two str.replace calls) and the description (at most 1000
characters when truthy), then derives the prefix, hashes the fresh
token, computes the expiry from the configured retention days, persists
the record and returns the plaintext once.  Validation failures raise
ValueError before anything is persisted. -/
def APIKeyService.generate_api_key (s : Session) (user_name : String)
    (description : Option String) (freshKey : String) (salt : Nat)
    (now : Nat) : Except PyError (GenResult × Session) :=
  if user_name = "" then
    .error (.valueError ("user_name must be a non-empty string"))
  else if user_name.length < 1 ∨ user_name.length > 255 then
    .error (.valueError ("user_name must be 1-255 characters"))
  else if !pyIsalnum (removeChar '-' (removeChar '_' user_name)) then
    .error (.valueError ("user_name must contain only alphanumeric characters, hyphens, and underscores"))
  else if (match description with
           | some d => decide (d ≠ "" ∧ d.length > 1000)
           | none => false) then
    .error (.valueError ("description must be 1000 characters or less"))
  else
    match APIKeyRepository.create s (hashpw freshKey salt) (freshKey.take 8)
        user_name description (expiryFrom s now) now with
    | .error e => .error e
    | .ok (created_key, s2) =>
      .ok ({ api_key := freshKey, user := user_name,
             created_at := created_key.created_at,
             expires_at := expiryFrom s now }, s2)

/-- The observable outcome of service.APIKeyService.verify_api_key: the
boolean decision, the session afterwards, and whether the prefix-indexed
store query was issued (false exactly on the early-reject paths). -/
structure VerifyResult where
  valid : Bool
  session : Session
  prefixQueried : Bool
deriving DecidableEq, Repr

/-- service.APIKeyService.verify_api_key: empty input is rejected at
once; otherwise the whole lookup runs inside a try block whose except
clause returns False, so any raised exception (storage failure, or the
AttributeError that update_last_used always raises) yields False. -/
def APIKeyService.verify_api_key (s : Session) (api_key : String) (now : Nat) :
    VerifyResult :=
  if api_key = "" then ⟨false, s, false⟩
  else
    match APIKeyRepository.get_by_key_hash s api_key with
    | .error _ => ⟨false, s, true⟩
    | .ok (none, q) => ⟨false, s, q⟩
    | .ok (some key_record, q) =>
      if key_record.is_active ≠ 1 then ⟨false, s, q⟩
      else if (match key_record.expires_at with
               | some e => decide (now > e)
               | none => false) then ⟨false, s, q⟩
      else
        match APIKeyRepository.update_last_used s key_record.id now with
        | .ok s2 => ⟨true, s2, q⟩
        | .error _ => ⟨false, s, q⟩

/-- The dictionary returned by service.APIKeyService.get_api_key_info
(expires_in_days is derived from these fields and omitted). -/
structure KeyInfo where
  user : String
  created_at : Nat
  expires_at : Option Nat
  last_used : Option Nat
deriving DecidableEq, Repr

/-- service.APIKeyService.get_api_key_info: read-only lookup; any raised
exception is swallowed and None returned. -/
def APIKeyService.get_api_key_info (s : Session) (api_key : String) :
    Option KeyInfo :=
  match APIKeyRepository.get_by_key_hash s api_key with
  | .error _ => none
  | .ok (none, _) => none
  | .ok (some key_record, _) =>
    if key_record.is_active = 1 then
      some { user := key_record.user_name,
             created_at := key_record.created_at,
             expires_at := key_record.expires_at,
             last_used := key_record.last_used }
    else none

/-- service.APIKeyService.revoke_api_key: locates the record by the full
verifier lookup on the presented plaintext, then revokes by id; returns
False when nothing is found or an exception is raised.  (The trailing
return after return False in the source is unreachable dead code.) -/
def APIKeyService.revoke_api_key (s : Session) (api_key : String) :
    Bool × Session :=
  match APIKeyRepository.get_by_key_hash s api_key with
  | .error _ => (false, s)
  | .ok (none, _) => (false, s)
  | .ok (some key_record, _) =>
    match APIKeyRepository.revoke s key_record.id with
    | .error _ => (false, s)
    | .ok (success, s2) => (success, s2)

/-- The administrative and request-path operations that can touch the
key store, with their external inputs (fresh token, salt, clock) made
explicit; setStorage models the persistence layer going down or up. -/
inductive Op where
  | generate (user_name : String) (description : Option String)
      (freshKey : String) (salt : Nat) (now : Nat)
  | verify (api_key : String) (now : Nat)
  | revoke (api_key : String)
  | getInfo (api_key : String)
  | setStorage (up : Bool)
deriving DecidableEq, Repr

/-- State transition of one operation.  An exception escaping generate
leaves the store unchanged (validation and create raise before any
mutation); get_api_key_info only reads. -/
def applyOp (s : Session) : Op → Session
  | .generate u d k salt now =>
    match APIKeyService.generate_api_key s u d k salt now with
    | .ok (_, s2) => s2
    | .error _ => s
  | .verify k now => (APIKeyService.verify_api_key s k now).session
  | .revoke k => (APIKeyService.revoke_api_key s k).2
  | .getInfo _ => s
  | .setStorage b => { s with storageUp := b }

/-- Applying a sequence of operations from left to right. -/
def applyOps (s : Session) : List Op → Session
  | [] => s
  | op :: rest => applyOps (applyOp s op) rest

/-! Concrete instances used by witnesses and counterexamples. -/

/-- An empty table with the id sequence at 1, reachable storage, and
expiration disabled. -/
def emptySession : Session :=
  { store := { nextId := 1, keys := [] }, storageUp := true,
    expirationDays := 0 }

/-- A 43-character plaintext token of the shape secrets.token_urlsafe
produces. -/
def tok1 : String := "Aq3xZ8ePbT5kYw9RmN2vL6sD1fGhJ4cU7iO0nE-tBX8"

/-- The record created for owner alice from tok1 with salt 7 at time 100. -/
def rec1 : APIKey :=
  { id := 1, keyPfx := "Aq3xZ8eP", key_hash := .valid 7 tok1,
    user_name := "alice", description := none, created_at := 100,
    expires_at := none, last_used := none, is_active := 1 }

/-- The session after generating tok1 for alice in emptySession. -/
def sess1 : Session :=
  { store := { nextId := 2, keys := [rec1] }, storageUp := true,
    expirationDays := 0 }

/-- Plaintext for the second scenario. -/
def tok2 : String := "KeyTwo22Bq3xZ8ePbT5kYw9RmN2vL6sD1fGhJ4cU7iO"

/-- An active record for owner bob whose hash matches tok2 and whose
expiry lies far in the future. -/
def rec2 : APIKey :=
  { id := 5, keyPfx := "KeyTwo22", key_hash := .valid 3 tok2,
    user_name := "bob", description := none, created_at := 10,
    expires_at := some 99999, last_used := none, is_active := 1 }

/-- A session holding only rec2, storage reachable. -/
def sess2 : Session :=
  { store := { nextId := 6, keys := [rec2] }, storageUp := true,
    expirationDays := 365 }

/-- Plaintext for the revocation scenario. -/
def tok3 : String := "ThirdKeyCq3xZ8ePbT5kYw9RmN2vL6sD1fGhJ4cU7iO"

/-- An active never-expiring record for owner carol matching tok3. -/
def rec3 : APIKey :=
  { id := 9, keyPfx := "ThirdKey", key_hash := .valid 1 tok3,
    user_name := "carol", description := none, created_at := 0,
    expires_at := none, last_used := none, is_active := 1 }

/-- A session holding only rec3. -/
def sess3 : Session :=
  { store := { nextId := 10, keys := [rec3] }, storageUp := true,
    expirationDays := 0 }

/-- Plaintext for the storage-failure scenario. -/
def tok4 : String := "FourthKyDq3xZ8ePbT5kYw9RmN2vL6sD1fGhJ4cU7iO"

/-- An active record for owner dave matching tok4. -/
def rec4 : APIKey :=
  { id := 2, keyPfx := "FourthKy", key_hash := .valid 4 tok4,
    user_name := "dave", description := none, created_at := 1,
    expires_at := none, last_used := none, is_active := 1 }

/-- A session holding rec4 while the persistence layer is unreachable. -/
def sess4down : Session :=
  { store := { nextId := 3, keys := [rec4] }, storageUp := false,
    expirationDays := 0 }

/-- Plaintext for the permanence scenario. -/
def tok5 : String := "FifthKeyEq3xZ8ePbT5kYw9RmN2vL6sD1fGhJ4cU7iO"

/-- An already-revoked record matching tok5. -/
def rec5 : APIKey :=
  { id := 0, keyPfx := "FifthKey", key_hash := .valid 2 tok5,
    user_name := "erin", description := none, created_at := 0,
    expires_at := none, last_used := none, is_active := 0 }

/-- A session holding the revoked rec5. -/
def sess5 : Session :=
  { store := { nextId := 1, keys := [rec5] }, storageUp := true,
    expirationDays := 0 }

/-- A sequence of later operations for the permanence scenario: a fresh
generation, a verification attempt of tok5, a revocation attempt of
tok5, an info lookup, and a storage outage and recovery. -/
def ops5 : List Op :=
  [ .generate ("frank") none ("SixthKeyFq3xZ8ePbT5kYw9RmN2vL6sD1fGhJ4cU7i") 11 50,
    .verify tok5 60, .revoke tok5, .getInfo tok5,
    .setStorage false, .setStorage true, .verify tok5 70 ]

/-- Plaintext for the expiry scenario. -/
def tok6 : String := "SixthKyGHq3xZ8ePbT5kYw9RmN2vL6sD1fGhJ4cU7iO"

/-- A still-active record matching tok6 whose expiry (time 500) has
passed. -/
def rec6 : APIKey :=
  { id := 3, keyPfx := "SixthKyG", key_hash := .valid 9 tok6,
    user_name := "gail", description := none, created_at := 1,
    expires_at := some 500, last_used := none, is_active := 1 }

/-- A session holding only rec6. -/
def sess6 : Session :=
  { store := { nextId := 4, keys := [rec6] }, storageUp := true,
    expirationDays := 0 }

/-- Plaintext for the revoke-despite-expiry scenario. -/
def tok7 : String := "SevenKeyHq3xZ8ePbT5kYw9RmN2vL6sD1fGhJ4cU7iO"

/-- A still-active record matching tok7 whose expiry (time 200) has
passed. -/
def rec7 : APIKey :=
  { id := 4, keyPfx := "SevenKey", key_hash := .valid 6 tok7,
    user_name := "hana", description := none, created_at := 1,
    expires_at := some 200, last_used := none, is_active := 1 }

/-- A session holding only rec7. -/
def sess7 : Session :=
  { store := { nextId := 5, keys := [rec7] }, storageUp := true,
    expirationDays := 0 }

/-- Well-formedness of the id sequence: every stored row carries a
primary key below the next value of the sequence.  True of every
session the application can build and preserved by every operation. -/
abbrev idsBelowNext (s : Session) : Prop :=
  ∀ r, r ∈ s.store.keys → r.id < s.store.nextId

/-- The record with primary key i is revoked: every stored row carrying
id i has is_active = 0. -/
abbrev idRevoked (s : Session) (i : Nat) : Prop :=
  ∀ r, r ∈ s.store.keys → r.id = i → r.is_active = 0

end Manadia

namespace Manadia

/-! General lemmas about the embedded operations. -/

/-- Every call to the effective update_last_used raises AttributeError:
the shadowing definition filters on a column the model does not have. -/
theorem update_last_used_raises (s : Session) (k now : Nat) :
    APIKeyRepository.update_last_used s k now =
      .error (.attributeError ("type object APIKey has no attribute key")) :=
  rfl

/-- verify_api_key never returns True on the source as written: every
path that reaches a matching, active, unexpired record then calls
update_last_used, which raises, and the enclosing except clause returns
False; every other path returns False directly. -/
theorem verify_never_valid (s : Session) (api_key : String) (now : Nat) :
    (APIKeyService.verify_api_key s api_key now).valid = false := by
  unfold APIKeyService.verify_api_key APIKeyRepository.update_last_used
  split
  · rfl
  · split
    · rfl
    · rfl
    · split
      · rfl
      · split
        · rfl
        · rfl

/-- verify_api_key leaves the store untouched: the only mutating call it
makes is update_last_used, which raises before modifying anything. -/
theorem verify_session_unchanged (s : Session) (api_key : String) (now : Nat) :
    (APIKeyService.verify_api_key s api_key now).session = s := by
  unfold APIKeyService.verify_api_key APIKeyRepository.update_last_used
  split
  · rfl
  · split
    · rfl
    · rfl
    · split
      · rfl
      · split
        · rfl
        · rfl

/-- A record returned by the candidate loop is a list member whose hash
checks against the presented plaintext. -/
theorem findMatch_some_spec (p : String) (l : List APIKey) (k : APIKey)
    (h : findMatch p l = some k) :
    k ∈ l ∧ checkpw p k.key_hash = .ok true := by
  induction l with
  | nil => simp [findMatch] at h
  | cons a rest ih =>
    unfold findMatch at h
    rcases hc : checkpw p a.key_hash with e | b
    · rw [hc] at h
      obtain ⟨hm, hck⟩ := ih h
      exact ⟨List.mem_cons_of_mem a hm, hck⟩
    · rw [hc] at h
      cases b with
      | true =>
        simp only [Option.some.injEq] at h
        subst h
        exact ⟨List.mem_cons_self a rest, hc⟩
      | false =>
        obtain ⟨hm, hck⟩ := ih h
        exact ⟨List.mem_cons_of_mem a hm, hck⟩

/-- If some list member checks against the plaintext, the candidate loop
finds a match. -/
theorem findMatch_isSome_of_mem (p : String) (l : List APIKey) (k : APIKey)
    (hm : k ∈ l) (hck : checkpw p k.key_hash = .ok true) :
    ∃ x, findMatch p l = some x := by
  induction l with
  | nil => simp at hm
  | cons a rest ih =>
    unfold findMatch
    rcases hc : checkpw p a.key_hash with e | b
    · rcases List.mem_cons.mp hm with rfl | hm2
      · rw [hc] at hck; cases hck
      · exact ih hm2
    · cases b with
      | true => exact ⟨a, rfl⟩
      | false =>
        rcases List.mem_cons.mp hm with rfl | hm2
        · rw [hc] at hck; cases hck
        · exact ih hm2

/-- What a successful record lookup implies: the returned record is
stored, active, carries the prefix of the presented plaintext, and its
hash checks; moreover storage was reachable, the input was at least 8
characters long, and the indexed query was issued. -/
theorem get_by_key_hash_some_spec (s : Session) (p : String) (k : APIKey)
    (q : Bool)
    (h : APIKeyRepository.get_by_key_hash s p = .ok (some k, q)) :
    k ∈ s.store.keys ∧ k.is_active = 1 ∧ k.keyPfx = p.take 8 ∧
      checkpw p k.key_hash = .ok true ∧ s.storageUp = true ∧
      8 ≤ p.length ∧ q = true := by
  unfold APIKeyRepository.get_by_key_hash at h
  split at h
  · cases h
  · next hlen =>
    push_neg at hlen
    split at h
    · cases h
    · next hup =>
      simp only [Bool.not_eq_true', Bool.not_eq_false] at hup
      simp only [Except.ok.injEq, Prod.mk.injEq] at h
      obtain ⟨hfm, hq⟩ := h
      obtain ⟨hmem, hck⟩ := findMatch_some_spec _ _ _ hfm
      rw [List.mem_filter] at hmem
      obtain ⟨hmem, hpred⟩ := hmem
      rw [decide_eq_true_eq] at hpred
      exact ⟨hmem, hpred.2, hpred.1, hck, hup, hlen.2, hq.symm⟩

/-- What an error from the record lookup implies: storage was down. -/
theorem get_by_key_hash_error_spec (s : Session) (p : String) (e : PyError)
    (h : APIKeyRepository.get_by_key_hash s p = .error e) :
    s.storageUp = false := by
  unfold APIKeyRepository.get_by_key_hash at h
  split at h
  · cases h
  · split at h
    · next hup => simpa using hup
    · cases h

/-- If storage is reachable and some stored, active record whose prefix
column matches the first 8 characters of the (at least 8 characters
long) input has a hash that checks, the lookup returns a record. -/
theorem get_by_key_hash_finds (s : Session) (p : String) (k : APIKey)
    (hup : s.storageUp = true) (hlen : 8 ≤ p.length)
    (hm : k ∈ s.store.keys) (hact : k.is_active = 1)
    (hpfx : k.keyPfx = p.take 8) (hck : checkpw p k.key_hash = .ok true) :
    ∃ x, APIKeyRepository.get_by_key_hash s p = .ok (some x, true) := by
  have hne : ¬(p = "" ∨ p.length < 8) := by
    rintro (rfl | hlt)
    · simp at hlen
    · omega
  unfold APIKeyRepository.get_by_key_hash
  rw [if_neg hne]
  have hup2 : (!s.storageUp) = false := by simp [hup]
  simp only [hup2, Bool.false_eq_true, if_false]
  have hmem : k ∈ s.store.keys.filter
      (fun x => decide (x.keyPfx = p.take 8 ∧ x.is_active = 1)) := by
    rw [List.mem_filter]
    exact ⟨hm, by simp [hpfx, hact]⟩
  obtain ⟨x, hx⟩ := findMatch_isSome_of_mem p _ k hmem hck
  exact ⟨x, by rw [hx]⟩

/-- Unfolding String.mk against String.toList. -/
theorem toList_mk (l : List Char) : (String.mk l).toList = l := rfl

/-- A successful generation appends exactly the freshly assembled record
and advances the id sequence; the storage flag and the configuration are
untouched. -/
theorem generate_ok_spec (s : Session) (u : String) (d : Option String)
    (k : String) (salt now : Nat) (res : GenResult) (s2 : Session)
    (h : APIKeyService.generate_api_key s u d k salt now = .ok (res, s2)) :
    s2.store.nextId = s.store.nextId + 1 ∧
    s2.store.keys = s.store.keys ++
      [newRecord s (hashpw k salt) (k.take 8) u d (expiryFrom s now) now] ∧
    s2.storageUp = s.storageUp ∧ s2.expirationDays = s.expirationDays := by
  unfold APIKeyService.generate_api_key at h
  split at h
  · cases h
  · split at h
    · cases h
    · split at h
      · cases h
      · split at h
        · cases h
        · rcases hc : APIKeyRepository.create s (hashpw k salt) (k.take 8)
              u d (expiryFrom s now) now with e | p
          · rw [hc] at h; cases h
          · rw [hc] at h
            obtain ⟨ck, s3⟩ := p
            simp only [Except.ok.injEq, Prod.mk.injEq] at h
            obtain ⟨-, hs3⟩ := h
            subst hs3
            unfold APIKeyRepository.create at hc
            split at hc
            · cases hc
            · simp only [Except.ok.injEq, Prod.mk.injEq] at hc
              obtain ⟨-, hs3⟩ := hc
              rw [← hs3]
              exact ⟨rfl, rfl, rfl, rfl⟩

/-- The session left by revoke_api_key is either unchanged or the result
of deactivating one id. -/
theorem revoke_api_key_snd_cases (s : Session) (K : String) :
    (APIKeyService.revoke_api_key s K).2 = s ∨
    ∃ i, (APIKeyService.revoke_api_key s K).2 = revokeById s i := by
  rcases hg : APIKeyRepository.get_by_key_hash s K with e | p
  · left
    simp only [APIKeyService.revoke_api_key, hg]
  · obtain ⟨o, q⟩ := p
    cases o with
    | none =>
      left
      simp only [APIKeyService.revoke_api_key, hg]
    | some kr =>
      rcases hr : APIKeyRepository.revoke s kr.id with e2 | p2
      · left
        simp only [APIKeyService.revoke_api_key, hg, hr]
      · obtain ⟨b, s2⟩ := p2
        have hr2 := hr
        unfold APIKeyRepository.revoke at hr2
        split at hr2
        · cases hr2
        · split at hr2
          · simp only [Except.ok.injEq, Prod.mk.injEq] at hr2
            right
            refine ⟨kr.id, ?_⟩
            simp only [APIKeyService.revoke_api_key, hg, hr]
            exact hr2.2.symm
          · simp only [Except.ok.injEq, Prod.mk.injEq] at hr2
            left
            simp only [APIKeyService.revoke_api_key, hg, hr]
            exact hr2.2.symm

/-- Membership in a session after revokeById: every row comes from a row
of the original session, deactivated when its id was the target. -/
theorem mem_revokeById (s : Session) (i : Nat) (x : APIKey)
    (h : x ∈ (revokeById s i).store.keys) :
    ∃ k0, k0 ∈ s.store.keys ∧
      x = (if k0.id = i then { k0 with is_active := 0 } else k0) := by
  unfold revokeById at h
  obtain ⟨k0, hk0, heq⟩ := List.mem_map.mp h
  exact ⟨k0, hk0, heq.symm⟩

/-- revokeById keeps the id sequence. -/
theorem revokeById_nextId (s : Session) (i : Nat) :
    (revokeById s i).store.nextId = s.store.nextId := rfl

/-- revokeById keeps the storage flag. -/
theorem revokeById_storageUp (s : Session) (i : Nat) :
    (revokeById s i).storageUp = s.storageUp := rfl

/-- One operation preserves id well-formedness and the revoked state of
a given id: no operation re-activates a revoked record. -/
theorem applyOp_preserves_revoked (s : Session) (i : Nat) (op : Op)
    (hb : idsBelowNext s) (hi : i < s.store.nextId) (hr : idRevoked s i) :
    idsBelowNext (applyOp s op) ∧ i < (applyOp s op).store.nextId ∧
      idRevoked (applyOp s op) i := by
  cases op with
  | generate u d k salt now =>
    simp only [applyOp]
    rcases hg : APIKeyService.generate_api_key s u d k salt now with e | p
    · exact ⟨hb, hi, hr⟩
    · obtain ⟨res, s2⟩ := p
      obtain ⟨hnext, hkeys, -, -⟩ := generate_ok_spec s u d k salt now res s2 hg
      have g1 : idsBelowNext s2 := by
        intro r hm
        rw [hkeys] at hm
        rw [hnext]
        rcases List.mem_append.mp hm with h1 | h2
        · have := hb r h1; omega
        · simp only [List.mem_singleton] at h2
          subst h2
          simp only [newRecord]
          omega
      have g2 : i < s2.store.nextId := by rw [hnext]; omega
      have g3 : idRevoked s2 i := by
        intro r hm hid
        rw [hkeys] at hm
        rcases List.mem_append.mp hm with h1 | h2
        · exact hr r h1 hid
        · simp only [List.mem_singleton] at h2
          subst h2
          simp only [newRecord] at hid
          exact absurd hid (by omega)
      exact ⟨g1, g2, g3⟩
  | verify k now =>
    simp only [applyOp]
    rw [verify_session_unchanged]
    exact ⟨hb, hi, hr⟩
  | revoke k =>
    simp only [applyOp]
    rcases revoke_api_key_snd_cases s k with h | ⟨j, h⟩
    · rw [h]; exact ⟨hb, hi, hr⟩
    · rw [h]
      have g1 : idsBelowNext (revokeById s j) := by
        intro r hm
        obtain ⟨k0, hk0, heq⟩ := mem_revokeById s j r hm
        rw [revokeById_nextId]
        have := hb k0 hk0
        by_cases hid : k0.id = j
        · rw [if_pos hid] at heq; subst heq; simpa using this
        · rw [if_neg hid] at heq; subst heq; exact this
      have g3 : idRevoked (revokeById s j) i := by
        intro r hm hid
        obtain ⟨k0, hk0, heq⟩ := mem_revokeById s j r hm
        by_cases hij : k0.id = j
        · rw [if_pos hij] at heq; rw [heq]
        · rw [if_neg hij] at heq
          rw [heq] at hid ⊢
          exact hr k0 hk0 hid
      exact ⟨g1, by rw [revokeById_nextId]; exact hi, g3⟩
  | getInfo k => exact ⟨hb, hi, hr⟩
  | setStorage b => exact ⟨hb, hi, hr⟩

/-- A sequence of operations never re-activates a revoked record. -/
theorem applyOps_preserves_revoked (s : Session) (i : Nat) (ops : List Op)
    (hb : idsBelowNext s) (hi : i < s.store.nextId) (hr : idRevoked s i) :
    idRevoked (applyOps s ops) i := by
  induction ops generalizing s with
  | nil => exact hr
  | cons op rest ih =>
    obtain ⟨hb2, hi2, hr2⟩ := applyOp_preserves_revoked s i op hb hi hr
    exact ih (applyOp s op) hb2 hi2 hr2

/-- The characters of a removeChar result. -/
theorem toList_removeChar (c : Char) (s : String) :
    (removeChar c s).toList = s.toList.filter (fun a => decide (a ≠ c)) :=
  rfl

/-- Python isalnum is false on any string holding a non-alphanumeric
character. -/
theorem pyIsalnum_eq_false_of_mem (s : String) (c : Char)
    (hc : c ∈ s.toList) (hna : Char.isAlphanum c = false) :
    pyIsalnum s = false := by
  unfold pyIsalnum
  have hall : s.toList.all Char.isAlphanum = false := by
    rcases hx : s.toList.all Char.isAlphanum with - | -
    · rfl
    · exfalso
      have := List.all_eq_true.mp hx c hc
      rw [hna] at this
      cases this
  rw [hall, Bool.and_false]

/-- An owner name containing a space fails the charset check: the space
survives both replace calls and is not alphanumeric. -/
theorem pyIsalnum_false_of_space (u : String) (hsp : (' ') ∈ u.toList) :
    pyIsalnum (removeChar '-' (removeChar '_' u)) = false := by
  have hmem : (' ') ∈ (removeChar '-' (removeChar '_' u)).toList := by
    rw [toList_removeChar, toList_removeChar]
    exact List.mem_filter.mpr ⟨List.mem_filter.mpr ⟨hsp, by decide⟩, by decide⟩
  exact pyIsalnum_eq_false_of_mem _ (' ') hmem (by decide)

/-- An owner name made only of underscores and hyphens fails the
charset check: both replace calls leave the empty string, and Python
isalnum on the empty string is false. -/
theorem pyIsalnum_false_of_only_marks (u : String)
    (hchars : ∀ c, c ∈ u.toList → c = '_' ∨ c = '-') :
    pyIsalnum (removeChar '-' (removeChar '_' u)) = false := by
  have hfil : (u.toList.filter (fun a => decide (a ≠ '_'))).filter
      (fun a => decide (a ≠ '-')) = [] := by
    rw [List.filter_eq_nil_iff]
    intro a ha
    obtain ⟨hmem, hne⟩ := List.mem_filter.mp ha
    rcases hchars a hmem with rfl | rfl
    · simp at hne
    · simp
  have hstr : removeChar '-' (removeChar '_' u) = String.mk [] := by
    unfold removeChar
    rw [toList_mk]
    exact congrArg String.mk hfil
  rw [hstr]
  rfl

/-! Claim theorems. -/

/-- C1: the specification states that verify_api_key on a plaintext just
returned by generate_api_key (same store state, no revocation, expiry
not passed) returns valid with the same owner name.  The code refutes
this: generating a key for alice succeeds and stores an active,
never-expiring record, yet verifying the returned plaintext against the
resulting store returns False, because the effective update_last_used
raises AttributeError and the except clause of verify_api_key maps the
exception to False. -/
theorem c1_verify_after_generate_returns_false :
    APIKeyService.generate_api_key emptySession ("alice") none tok1 7 100 =
      .ok ({ api_key := tok1, user := "alice", created_at := 100,
             expires_at := none }, sess1) ∧
    rec1 ∈ sess1.store.keys ∧ rec1.user_name = "alice" ∧
    rec1.is_active = 1 ∧ rec1.expires_at = none ∧
    (APIKeyService.verify_api_key sess1 tok1 100).valid = false :=
  ⟨by decide, by decide, rfl, rfl, rfl, by decide⟩

/-- C2: the specification states that a failure of the last-used update
must not change the verification outcome.  The code refutes this: the
update_last_used call sits inside the try block of verify_api_key whose
except clause returns False, so its failure (and it always fails, with
AttributeError) turns an otherwise valid verification into False.  Here
rec2 matches tok2, is active and unexpired at time 50, update_last_used
raises, and verify_api_key returns False. -/
theorem c2_touch_failure_fails_verification :
    APIKeyRepository.update_last_used sess2 5 50 =
      .error (.attributeError ("type object APIKey has no attribute key")) ∧
    rec2 ∈ sess2.store.keys ∧ rec2.is_active = 1 ∧
    checkpw tok2 rec2.key_hash = .ok true ∧ rec2.expires_at = some 99999 ∧
    (APIKeyService.verify_api_key sess2 tok2 50).valid = false :=
  ⟨rfl, by decide, rfl, by decide, rfl, by decide⟩

/-- C3 counterexample: revoking tok3 succeeds (returns true), but a
second revoke of the same plaintext returns false, not true as the
claim states: the lookup filters on is_active = 1 and no longer finds
the revoked record. -/
theorem c3_counterexample :
    (APIKeyService.revoke_api_key sess3 tok3).1 = true ∧
    ¬((APIKeyService.revoke_api_key
        (APIKeyService.revoke_api_key sess3 tok3).2 tok3).1 = true) := by
  decide

/-- C3 amended: after revoke_api_key has succeeded (returned true) for
plaintext K, calling it again returns false: get_by_key_hash only
considers records with is_active = 1, so the now-inactive record is no
longer found.  The hypothesis reflects the documented invariant that at
most one stored record can match a given plaintext (key hashes are
unique across records). -/
theorem c3_second_revoke_returns_false (s : Session) (K : String)
    (huniq : ∀ r1, r1 ∈ s.store.keys → ∀ r2, r2 ∈ s.store.keys →
      checkpw K r1.key_hash = .ok true → checkpw K r2.key_hash = .ok true →
      r1.id = r2.id)
    (hfirst : (APIKeyService.revoke_api_key s K).1 = true) :
    (APIKeyService.revoke_api_key
      (APIKeyService.revoke_api_key s K).2 K).1 = false := by
  rcases hg : APIKeyRepository.get_by_key_hash s K with e | p
  · rw [APIKeyService.revoke_api_key, hg] at hfirst
    cases hfirst
  · obtain ⟨o, q⟩ := p
    cases o with
    | none =>
      rw [APIKeyService.revoke_api_key, hg] at hfirst
      cases hfirst
    | some kr =>
      obtain ⟨hkrm, hkra, hkrp, hkrc, hup, hlen, hq⟩ :=
        get_by_key_hash_some_spec s K kr q hg
      rcases hr : APIKeyRepository.revoke s kr.id with e2 | p2
      · simp [APIKeyService.revoke_api_key, hg, hr] at hfirst
      · obtain ⟨b, s2⟩ := p2
        have hsnd : (APIKeyService.revoke_api_key s K).2 = s2 := by
          simp only [APIKeyService.revoke_api_key, hg, hr]
        have hr2 := hr
        unfold APIKeyRepository.revoke at hr2
        split at hr2
        · cases hr2
        · split at hr2
          · simp only [Except.ok.injEq, Prod.mk.injEq] at hr2
            rw [hsnd, ← hr2.2]
            rcases hg2 : APIKeyRepository.get_by_key_hash
                (revokeById s kr.id) K with e3 | p3
            · simp only [APIKeyService.revoke_api_key, hg2]
            · obtain ⟨o2, q2⟩ := p3
              cases o2 with
              | none => simp only [APIKeyService.revoke_api_key, hg2]
              | some kr2 =>
                exfalso
                obtain ⟨hm2, ha2, -, hc2, -, -, -⟩ :=
                  get_by_key_hash_some_spec _ K kr2 q2 hg2
                obtain ⟨k0, hk0, heq⟩ := mem_revokeById s kr.id kr2 hm2
                by_cases hid : k0.id = kr.id
                · rw [if_pos hid] at heq
                  rw [heq] at ha2
                  cases ha2
                · rw [if_neg hid] at heq
                  rw [heq] at hc2
                  exact hid (huniq k0 hk0 kr hkrm hc2 hkrc)
          · simp only [Except.ok.injEq, Prod.mk.injEq] at hr2
            obtain ⟨hb2, -⟩ := hr2
            simp [APIKeyService.revoke_api_key, hg, hr, ← hb2] at hfirst

/-- C3 witness: the amended claim at the concrete revocation scenario. -/
theorem c3_witness :
    (APIKeyService.revoke_api_key
      (APIKeyService.revoke_api_key sess3 tok3).2 tok3).1 = false :=
  c3_second_revoke_returns_false sess3 tok3 (by decide) (by decide)

/-- C4 counterexample: with the persistence layer down, verifying tok4
(whose active record is present in the store) returns False, exactly
the outcome of verifying the same plaintext against an empty store with
healthy storage, even though the lookup raised a storage error: no
distinct failure is surfaced to the caller. -/
theorem c4_counterexample :
    APIKeyRepository.get_by_key_hash sess4down tok4 =
      .error (.storageError ("database unavailable")) ∧
    (APIKeyService.verify_api_key sess4down tok4 10).valid = false ∧
    (APIKeyService.verify_api_key sess4down tok4 10).valid =
      (APIKeyService.verify_api_key emptySession tok4 10).valid :=
  ⟨by decide, by decide, by decide⟩

/-- C4 amended: when the persistence layer is unreachable, the storage
error raised by the lookup is caught by the except clause of
verify_api_key and reported as False, the same single outcome as
invalid credentials; the store is left unchanged, and for any input
long enough to reach the database the lookup really does raise. -/
theorem c4_storage_error_reported_as_invalid (s : Session) (K : String)
    (now : Nat) (hdown : s.storageUp = false) :
    (APIKeyService.verify_api_key s K now).valid = false ∧
    (APIKeyService.verify_api_key s K now).session = s ∧
    (8 ≤ K.length →
      ∃ e, APIKeyRepository.get_by_key_hash s K = .error e) := by
  refine ⟨verify_never_valid s K now, verify_session_unchanged s K now, ?_⟩
  intro hlen
  have hne : ¬(K = "" ∨ K.length < 8) := by
    rintro (rfl | hlt)
    · simp at hlen
    · omega
  refine ⟨.storageError ("database unavailable"), ?_⟩
  unfold APIKeyRepository.get_by_key_hash
  rw [if_neg hne, if_pos (by rw [hdown]; rfl)]

/-- C4 witness: the amended claim at the concrete outage scenario. -/
theorem c4_witness :
    (APIKeyService.verify_api_key sess4down tok4 10).valid = false ∧
    (APIKeyService.verify_api_key sess4down tok4 10).session = sess4down ∧
    (8 ≤ tok4.length →
      ∃ e, APIKeyRepository.get_by_key_hash sess4down tok4 = .error e) :=
  c4_storage_error_reported_as_invalid sess4down tok4 10 (by decide)

/-- C5: once every stored row carrying id i is revoked (is_active = 0),
this remains true in every state reachable by any sequence of service
operations, i.e. there is no re-activation transition, and no
verify_api_key call in the reached state returns valid.  (As the C1 and
C2 theorems show, verify_api_key as written never returns valid at all,
which makes the second conjunct hold for every plaintext.) -/
theorem c5_revocation_is_permanent (s : Session) (i : Nat) (ops : List Op)
    (hb : idsBelowNext s) (hi : i < s.store.nextId) (hrev : idRevoked s i) :
    idRevoked (applyOps s ops) i ∧
    ∀ K now, (APIKeyService.verify_api_key (applyOps s ops) K now).valid = false :=
  ⟨applyOps_preserves_revoked s i ops hb hi hrev,
   fun K now => verify_never_valid (applyOps s ops) K now⟩

/-- C5 witness: the revoked rec5 stays revoked across a generation, two
verification attempts, a revocation attempt, an info lookup and a
storage outage with recovery. -/
theorem c5_witness :
    idRevoked (applyOps sess5 ops5) 0 ∧
    ∀ K now,
      (APIKeyService.verify_api_key (applyOps sess5 ops5) K now).valid = false :=
  c5_revocation_is_permanent sess5 0 ops5 (by decide) (by decide) (by decide)

/-- C6: when the lookup finds a record that is still active but whose
expires_at lies strictly in the past at verification time, verify
returns False and leaves the store untouched, the same observable
outcome as every other invalid-key case (the function returns only the
boolean, so no distinct signal exists). -/
theorem c6_expired_key_is_invalid (s : Session) (K : String) (now : Nat)
    (r : APIKey) (q : Bool) (e : Nat)
    (hget : APIKeyRepository.get_by_key_hash s K = .ok (some r, q))
    (hact : r.is_active = 1) (hexp : r.expires_at = some e)
    (hpast : e < now) :
    APIKeyService.verify_api_key s K now = ⟨false, s, q⟩ := by
  have hKne : K ≠ "" := by
    intro hK
    rw [hK] at hget
    unfold APIKeyRepository.get_by_key_hash at hget
    simp at hget
  rw [APIKeyService.verify_api_key, if_neg hKne]
  simp only [hget]
  rw [if_neg (fun hcon => hcon hact)]
  rw [hexp]
  simp only [decide_eq_true_eq]
  rw [if_pos hpast]

/-- C6 witness: rec6 is active with expiry 500; verifying tok6 at time
600 returns False with the store untouched. -/
theorem c6_witness :
    APIKeyService.verify_api_key sess6 tok6 600 = ⟨false, sess6, true⟩ :=
  c6_expired_key_is_invalid sess6 tok6 600 rec6 true 500
    (by decide) (by decide) (by decide) (by decide)

/-- C7: an owner name containing a space or longer than 255 characters,
or a description longer than 1000 characters, makes generate_api_key
raise ValueError — a validation error distinct from the storage and
attribute errors — and nothing is persisted: the session is unchanged. -/
theorem c7_validation_error_persists_nothing (s : Session) (u : String)
    (d : Option String) (fresh : String) (salt : Nat) (now : Nat)
    (hbad : (' ') ∈ u.toList ∨ 255 < u.length ∨
      (∃ dd, d = some dd ∧ 1000 < dd.length)) :
    (∃ msg, APIKeyService.generate_api_key s u d fresh salt now =
      .error (.valueError msg)) ∧
    applyOp s (.generate u d fresh salt now) = s := by
  have herr : ∃ msg, APIKeyService.generate_api_key s u d fresh salt now =
      .error (.valueError msg) := by
    unfold APIKeyService.generate_api_key
    split
    · exact ⟨_, rfl⟩
    · split
      · exact ⟨_, rfl⟩
      · split
        · exact ⟨_, rfl⟩
        · split
          · exact ⟨_, rfl⟩
          · exfalso
            next hne hlen hcs hd =>
            rcases hbad with hsp | hlong | ⟨dd, rfl, hdd⟩
            · rw [pyIsalnum_false_of_space u hsp] at hcs
              exact hcs rfl
            · exact hlen (Or.inr hlong)
            · apply hd
              simp only [decide_eq_true_eq]
              constructor
              · intro hdd2
                rw [hdd2] at hdd
                simp at hdd
              · exact hdd
  obtain ⟨msg, hm⟩ := herr
  refine ⟨⟨msg, hm⟩, ?_⟩
  simp only [applyOp, hm]

/-- C7 witness: the validation claim at an owner name with a space. -/
theorem c7_witness :
    (∃ msg, APIKeyService.generate_api_key emptySession ("bad name") none
      ("SomeFreshKeyTokenValue0123456789") 1 0 = .error (.valueError msg)) ∧
    applyOp emptySession
      (.generate ("bad name") none ("SomeFreshKeyTokenValue0123456789") 1 0) =
      emptySession :=
  c7_validation_error_persists_nothing emptySession ("bad name") none
    ("SomeFreshKeyTokenValue0123456789") 1 0 (Or.inl (by decide))

/-- C8: an empty or shorter-than-8 presented key makes verify_api_key
return False immediately: no exception escapes, the store is unchanged,
and the prefix-indexed query is never issued. -/
theorem c8_short_input_rejected (s : Session) (K : String) (now : Nat)
    (h : K = "" ∨ K.length < 8) :
    APIKeyService.verify_api_key s K now = ⟨false, s, false⟩ := by
  by_cases hK : K = ""
  · rw [APIKeyService.verify_api_key, if_pos hK]
  · have hlen : K.length < 8 := by
      rcases h with rfl | hlen
      · exact absurd rfl hK
      · exact hlen
    have hg : APIKeyRepository.get_by_key_hash s K = .ok (none, false) := by
      unfold APIKeyRepository.get_by_key_hash
      rw [if_pos (Or.inr hlen)]
    rw [APIKeyService.verify_api_key, if_neg hK]
    simp only [hg]

/-- C8 witness: the short-input claim at the 5-character input. -/
theorem c8_witness :
    APIKeyService.verify_api_key emptySession ("short") 3 =
      ⟨false, emptySession, false⟩ :=
  c8_short_input_rejected emptySession ("short") 3 (Or.inr (by decide))

/-- C9: an owner name consisting solely of hyphens and underscores is
rejected with ValueError even though each character individually lies
in the allowed charset: the two str.replace calls strip it to the empty
string, and Python isalnum is false on the empty string. -/
theorem c9_marks_only_owner_rejected (s : Session) (u : String)
    (d : Option String) (fresh : String) (salt : Nat) (now : Nat)
    (hne : u ≠ "") (hchars : ∀ c, c ∈ u.toList → c = '_' ∨ c = '-') :
    ∃ msg, APIKeyService.generate_api_key s u d fresh salt now =
      .error (.valueError msg) := by
  unfold APIKeyService.generate_api_key
  split
  · exact ⟨_, rfl⟩
  · split
    · exact ⟨_, rfl⟩
    · split
      · exact ⟨_, rfl⟩
      · next h1 h2 hcs =>
        exfalso
        rw [pyIsalnum_false_of_only_marks u hchars] at hcs
        exact hcs rfl

/-- C9 witness: the underscores-only owner name is rejected. -/
theorem c9_witness :
    ∃ msg, APIKeyService.generate_api_key emptySession ("___") none
      ("SomeFreshKeyTokenValue0123456789") 1 0 = .error (.valueError msg) :=
  c9_marks_only_owner_rejected emptySession ("___") none
    ("SomeFreshKeyTokenValue0123456789") 1 0 (by decide) (by decide)

/-- C10: a record that is still active but already expired can still be
revoked by presenting the matching plaintext: revoke_api_key returns
true and every row with that id is marked inactive, while a
verification of the same plaintext at the same moment returns invalid.
The uniqueness hypothesis reflects the invariant that at most one
stored record matches a given plaintext. -/
theorem c10_expired_key_still_revocable (s : Session) (K : String)
    (now : Nat) (r : APIKey) (e : Nat)
    (hup : s.storageUp = true) (hlen : 8 ≤ K.length)
    (hm : r ∈ s.store.keys) (hact : r.is_active = 1)
    (hpfx : r.keyPfx = K.take 8) (hck : checkpw K r.key_hash = .ok true)
    (hexp : r.expires_at = some e) (hpast : e < now)
    (huniq : ∀ x, x ∈ s.store.keys → x.is_active = 1 →
      checkpw K x.key_hash = .ok true → x = r) :
    (APIKeyService.revoke_api_key s K).1 = true ∧
    (∀ x, x ∈ (APIKeyService.revoke_api_key s K).2.store.keys →
      x.id = r.id → x.is_active = 0) ∧
    (APIKeyService.verify_api_key s K now).valid = false := by
  obtain ⟨x, hg⟩ := get_by_key_hash_finds s K r hup hlen hm hact hpfx hck
  obtain ⟨hxm, hxa, -, hxc, -, -, -⟩ := get_by_key_hash_some_spec s K x true hg
  have hxr : x = r := huniq x hxm hxa hxc
  subst hxr
  have hany : (s.store.keys.any fun k => decide (k.id = x.id)) = true :=
    List.any_eq_true.mpr ⟨x, hm, by simp⟩
  have hrev : APIKeyRepository.revoke s x.id = .ok (true, revokeById s x.id) := by
    unfold APIKeyRepository.revoke
    rw [if_neg (by rw [hup]; simp), if_pos hany]
  refine ⟨?_, ?_, verify_never_valid s K now⟩
  · simp only [APIKeyService.revoke_api_key, hg, hrev]
  · intro y hy hid
    have hsnd : (APIKeyService.revoke_api_key s K).2 = revokeById s x.id := by
      simp only [APIKeyService.revoke_api_key, hg, hrev]
    rw [hsnd] at hy
    obtain ⟨k0, hk0, heq⟩ := mem_revokeById s x.id y hy
    by_cases hij : k0.id = x.id
    · rw [if_pos hij] at heq; rw [heq]
    · rw [if_neg hij] at heq
      rw [heq] at hid
      exact absurd hid hij

/-- C10 witness: rec7 (active, expired at 200) is revoked with tok7 at
time 300: revocation succeeds, the row is inactive afterwards, and
verification at the same time returns invalid. -/
theorem c10_witness :
    (APIKeyService.revoke_api_key sess7 tok7).1 = true ∧
    (∀ x, x ∈ (APIKeyService.revoke_api_key sess7 tok7).2.store.keys →
      x.id = rec7.id → x.is_active = 0) ∧
    (APIKeyService.verify_api_key sess7 tok7 300).valid = false :=
  c10_expired_key_still_revocable sess7 tok7 300 rec7 200
    (by decide) (by decide) (by decide) (by decide) (by decide)
    (by decide) (by decide) (by decide) (by decide)

end Manadia
